import Mathlib

/-!
Verification of the position/risk core of the Gosol repository
(src/ml-service/risk_management.py and src/ml-service/trade_executor.py).

The Python source is shallowly embedded: money amounts, prices and rates are
modelled as `ℚ` (the Python code uses IEEE floats; all quantities relevant to
the claims are exactly representable), Python `dict`s keyed by symbol are
modelled as association lists, Python exceptions as `Except String`, and
`None`-able values as `Option`.  Only `sqrt`-based risk statistics (Sharpe /
Sortino) are modelled over `ℝ`.  Each definition mirrors one function of the
source, cited by file and line.
-/

set_option autoImplicit false

namespace Gosol

/-- Python `max` on two rationals. -/
def qmax (a b : ℚ) : ℚ := if a ≤ b then b else a

/-- Python `min` on two rationals. -/
def qmin (a b : ℚ) : ℚ := if a ≤ b then a else b

/-- Python `abs` on a rational. -/
def qabs (a : ℚ) : ℚ := if a < 0 then -a else a

instance {ε α : Type} [DecidableEq ε] [DecidableEq α] :
    DecidableEq (Except ε α) := fun a b =>
  match a, b with
  | .ok x, .ok y =>
    if h : x = y then .isTrue (by rw [h]) else .isFalse (by simp [h])
  | .error x, .error y =>
    if h : x = y then .isTrue (by rw [h]) else .isFalse (by simp [h])
  | .ok _, .error _ => .isFalse (by simp)
  | .error _, .ok _ => .isFalse (by simp)

/-- Python dict lookup on an association list (first binding wins, as in the
embedded `dict` which holds at most one binding per key). -/
def dict_get {α : Type} : List (String × α) → String → Option α
  | [], _ => none
  | (k, v) :: rest, key => if k = key then some v else dict_get rest key

/-- Python dict assignment `d[key] = v`: replaces the binding when the key is
present, appends otherwise. -/
def dict_insert {α : Type} : List (String × α) → String → α → List (String × α)
  | [], key, v => [(key, v)]
  | (k, w) :: rest, key, v =>
    if k = key then (key, v) :: rest else (k, w) :: dict_insert rest key v

namespace RM

/-- `RiskManager.min_maintenance_margin`: hardcoded to `0.005` in
`RiskManager.__init__` (risk_management.py line 84), overriding the config. -/
def min_maintenance_margin : ℚ := 1 / 200

/-- The fields of `RiskConfig` (risk_management.py lines 15-34) used by the
embedded operations.  `db_path` and other fields consumed only by I/O code are
omitted. -/
structure RiskConfig where
  max_position_size : ℚ
  max_drawdown : ℚ
  daily_loss_limit : ℚ
  position_limit : ℕ
  risk_per_trade : ℚ
  leverage_limit : ℚ
  correlation_limit : ℚ
  min_diversification : ℕ
  max_leverage : ℚ
  max_position_value : ℚ
  deriving DecidableEq

/-- `Position` (risk_management.py lines 36-50); `timestamp` and `metadata`
(datetime / opaque dict) are omitted. -/
structure Position where
  symbol : String
  direction : String
  size : ℚ
  entry_price : ℚ
  current_price : ℚ
  stop_loss : ℚ
  take_profit : ℚ
  unrealized_pnl : ℚ
  realized_pnl : ℚ
  margin_used : ℚ
  deriving DecidableEq

/-- `ContractPosition` (risk_management.py lines 66-74); `next_funding_time`
(datetime) is omitted. -/
structure ContractPosition extends Position where
  leverage : ℚ
  liquidation_price : ℚ
  margin_type : String
  maintenance_margin : ℚ
  funding_rate : ℚ
  deriving DecidableEq

/-- `RiskManager._calculate_liquidation_price` (risk_management.py lines
602-612).  Isolated margin: the closed-form formula; `leverage = 0` would be a
Python `ZeroDivisionError`.  The cross-margin branch calls
`self._calculate_total_equity()`, a method that is defined nowhere on
`RiskManager`, so in Python it raises `AttributeError`. -/
def calculate_liquidation_price (p : ContractPosition) : Except String ℚ :=
  if p.margin_type = "isolated" then
    if p.leverage = 0 then .error "ZeroDivisionError"
    else if p.direction = "long" then
      .ok (p.entry_price * (1 - 1 / p.leverage + min_maintenance_margin))
    else
      .ok (p.entry_price * (1 + 1 / p.leverage - min_maintenance_margin))
  else
    .error "AttributeError"

/-- `daily_stats` (risk_management.py lines 87-94); `low_equity` is written at
initialisation and never read, so it is omitted. -/
structure DailyStats where
  high_equity : ℚ
  total_trades : ℕ
  winning_trades : ℕ
  losing_trades : ℕ
  total_pnl : ℚ
  deriving DecidableEq

/-- Fresh `daily_stats` as initialised in `RiskManager.__init__`. -/
def DailyStats.init : DailyStats :=
  { high_equity := 0, total_trades := 0, winning_trades := 0,
    losing_trades := 0, total_pnl := 0 }

/-- Sum of `unrealized_pnl` over the open positions
(risk_management.py line 308). -/
def total_unrealized (ps : List (String × Position)) : ℚ :=
  (ps.map (fun pr => pr.2.unrealized_pnl)).sum

/-- Sum of `margin_used` over the open positions
(risk_management.py line 307). -/
def total_margin_used (ps : List (String × Position)) : ℚ :=
  (ps.map (fun pr => pr.2.margin_used)).sum

/-- `total_equity` as computed by `RiskManager._get_portfolio_state`
(risk_management.py lines 306-311): the hardcoded 100000 initial capital plus
unrealized PnL plus `daily_stats.total_pnl`. -/
def portfolio_total_equity (ps : List (String × Position)) (st : DailyStats) : ℚ :=
  100000 + total_unrealized ps + st.total_pnl

/-- The updated `daily_stats.high_equity` after `_get_portfolio_state`
(risk_management.py lines 318-321). -/
def portfolio_high_equity (ps : List (String × Position)) (st : DailyStats) : ℚ :=
  qmax st.high_equity (portfolio_total_equity ps st)

/-- `RiskManager.calculate_position_size` (risk_management.py lines 184-203).
Uses the portfolio equity from `_get_portfolio_state`.  When
`price == stop_loss` the Python division `risk_amount * factor / price_risk`
raises an (uncaught, unnamed) `ZeroDivisionError`; likewise `price = 0` for the
`max_size` division. -/
def calculate_position_size (cfg : RiskConfig) (ps : List (String × Position))
    (st : DailyStats) (price stop_loss volatility : ℚ) : Except String ℚ :=
  let equity := portfolio_total_equity ps st
  let risk_amount := equity * cfg.risk_per_trade
  let volatility_factor := if volatility > 1/50 then (1/50) / volatility else 1
  let price_risk := qabs (price - stop_loss)
  if price_risk = 0 then .error "ZeroDivisionError"
  else if price = 0 then .error "ZeroDivisionError"
  else
    let position_size := risk_amount * volatility_factor / price_risk
    let max_size := cfg.max_position_size * equity / price
    .ok (qmin position_size max_size)

/-- Mean of a list of rationals (`np.mean`; Lean division by zero gives 0 on
the empty list, which no embedded call reaches with an empty list). -/
def meanQ (l : List ℚ) : ℚ := l.sum / l.length

/-- Population variance (`np.std` squared, `ddof = 0`). -/
def popVarQ (l : List ℚ) : ℚ :=
  (l.map (fun x => (x - meanQ l) ^ 2)).sum / l.length

/-- `np.std`: square root of the population variance, over `ℝ`. -/
noncomputable def np_std (l : List ℚ) : ℝ := Real.sqrt ((popVarQ l : ℚ) : ℝ)

/-- Insert into a sorted list of rationals (ascending). -/
def insertAsc (x : ℚ) : List ℚ → List ℚ
  | [] => [x]
  | y :: ys => if x ≤ y then x :: y :: ys else y :: insertAsc x ys

/-- Ascending insertion sort, used by the percentile computation. -/
def sortAsc (l : List ℚ) : List ℚ := l.foldr insertAsc []

/-- `np.percentile(l, q)` with the default linear interpolation. -/
def percentileQ (l : List ℚ) (q : ℚ) : ℚ :=
  let s := sortAsc l
  let n := s.length
  if n = 0 then 0
  else
    let h : ℚ := ((n : ℚ) - 1) * q / 100
    let lo : ℕ := (⌊h⌋).toNat
    let a := s.getD lo 0
    let b := s.getD (min (lo + 1) (n - 1)) 0
    a + (h - (lo : ℚ)) * (b - a)

/-- Python `max(...)` over a generator of rationals (errors on an empty
sequence; every embedded call site guards non-emptiness). -/
def listMaxQ : List ℚ → ℚ
  | [] => 0
  | x :: xs => xs.foldl qmax x

/-- The `risk_metrics` dict computed by `RiskManager._calculate_risk_metrics`
(risk_management.py lines 348-412).  Sharpe and Sortino involve `np.sqrt`, so
they live in `ℝ`; the remaining entries are exact rationals. -/
structure RiskMetrics where
  sharpe_ratio : ℝ
  sortino_ratio : ℝ
  max_drawdown : ℚ
  var_95 : ℚ
  expected_shortfall : ℚ

/-- The all-zero metrics dict returned when there is no usable return series
(risk_management.py lines 350-357 and 406-412). -/
def RiskMetrics.zeros : RiskMetrics :=
  { sharpe_ratio := 0, sortino_ratio := 0, max_drawdown := 0,
    var_95 := 0, expected_shortfall := 0 }

/-- `PortfolioState` (risk_management.py lines 52-64).  `margin_level` is
`float('inf')` when `used_margin = 0`, encoded as `none`. -/
structure PortfolioState where
  total_equity : ℚ
  used_margin : ℚ
  free_margin : ℚ
  margin_level : Option ℚ
  total_pnl : ℚ
  daily_pnl : ℚ
  positions : List (String × Position)
  risk_metrics : RiskMetrics
  drawdown : ℚ
  exposure : List (String × ℚ)

/-- The equity-return series over the portfolio history
(risk_management.py lines 359-369). -/
def returns_of : List PortfolioState → List ℚ
  | a :: b :: rest =>
      (b.total_equity - a.total_equity) / a.total_equity :: returns_of (b :: rest)
  | _ => []

/-- `RiskManager._calculate_risk_metrics` (risk_management.py lines 348-412):
zeros when the history is empty or yields at most one return; otherwise
Sharpe/Sortino (annualised, risk-free 2%/252), max drawdown over the history,
the 5th-percentile VaR and the expected shortfall of the return series. -/
noncomputable def calculate_risk_metrics (history : List PortfolioState) : RiskMetrics :=
  match history with
  | [] => RiskMetrics.zeros
  | _ =>
    let returns := returns_of history
    if 1 < returns.length then
      let avg := meanQ returns
      let std : ℝ := np_std returns
      let downside := returns.filter (fun r => r < 0)
      let downside_std : ℝ := if 0 < downside.length then np_std downside else 0
      let risk_free_rate : ℚ := (2/100) / 252
      let var_95 := percentileQ returns 5
      { sharpe_ratio :=
          if 0 < std then (((avg - risk_free_rate : ℚ) : ℝ) / std) * Real.sqrt 252 else 0
        sortino_ratio :=
          if 0 < downside_std then
            (((avg - risk_free_rate : ℚ) : ℝ) / downside_std) * Real.sqrt 252
          else 0
        max_drawdown := listMaxQ (history.map (fun p => p.drawdown))
        var_95 := var_95
        expected_shortfall := meanQ (returns.filter (fun r => r ≤ var_95)) }
    else RiskMetrics.zeros

/-- `RiskManager._get_portfolio_state` (risk_management.py lines 304-346),
value part.  `drawdown` divides by the updated peak equity; Python would raise
`ZeroDivisionError` if that peak were 0 (Lean yields 0 there; every embedded
run has a positive peak). -/
noncomputable def get_portfolio_state (ps : List (String × Position))
    (st : DailyStats) (history : List PortfolioState) : PortfolioState :=
  let total_equity := portfolio_total_equity ps st
  let used_margin := total_margin_used ps
  let high := portfolio_high_equity ps st
  { total_equity := total_equity
    used_margin := used_margin
    free_margin := total_equity - used_margin
    margin_level := if 0 < used_margin then some (total_equity / used_margin) else none
    total_pnl := st.total_pnl
    daily_pnl := total_unrealized ps + st.total_pnl
    positions := ps
    risk_metrics := calculate_risk_metrics history
    drawdown := (high - total_equity) / high
    exposure := ps.map (fun pr => (pr.1, pr.2.size * pr.2.current_price)) }

/-- The `daily_stats` mutation performed inside `_get_portfolio_state`
(risk_management.py lines 318-321): `high_equity` is raised to the new
equity. -/
def get_portfolio_state_stats (ps : List (String × Position))
    (st : DailyStats) : DailyStats :=
  { st with high_equity := portfolio_high_equity ps st }

/-- Price/PnL refresh of one position inside `RiskManager.update_positions`
(risk_management.py lines 209-220). -/
def apply_price (p : Position) (price : ℚ) : Position :=
  { p with
    current_price := price
    unrealized_pnl :=
      if p.direction = "buy" then (price - p.entry_price) * p.size
      else (p.entry_price - price) * p.size }

/-- `RiskManager._check_stop_loss_take_profit` (risk_management.py lines
230-247), the trigger condition (the closing side effects are in
`close_stats`). -/
def check_stop_loss_take_profit (p : Position) : Bool :=
  if p.direction = "buy" then
    p.current_price ≤ p.stop_loss ∨ p.current_price ≥ p.take_profit
  else
    p.current_price ≥ p.stop_loss ∨ p.current_price ≤ p.take_profit

/-- Realized PnL computed by `RiskManager._close_position`
(risk_management.py lines 252-259). -/
def close_realized_pnl (p : Position) : ℚ :=
  if p.direction = "buy" then (p.current_price - p.entry_price) * p.size
  else (p.entry_price - p.current_price) * p.size

/-- The `daily_stats` update of `RiskManager._close_position`
(risk_management.py lines 263-269). -/
def close_stats (st : DailyStats) (p : Position) : DailyStats :=
  let realized := close_realized_pnl p
  { st with
    total_trades := st.total_trades + 1
    winning_trades := if 0 < realized then st.winning_trades + 1 else st.winning_trades
    losing_trades := if 0 < realized then st.losing_trades else st.losing_trades + 1
    total_pnl := st.total_pnl + realized }

/-- The per-position loop of `RiskManager.update_positions`
(risk_management.py lines 207-223): refresh price and unrealized PnL for every
symbol present in the market map, then close any position whose stop-loss or
take-profit has triggered.  (Python iterates the dict it mutates and would in
fact raise `RuntimeError` on such a close; the loop is embedded as written.) -/
def update_positions_loop (market : List (String × ℚ)) :
    List (String × Position) → DailyStats → List (String × Position) × DailyStats
  | [], st => ([], st)
  | (sym, p) :: rest, st =>
    match dict_get market sym with
    | some price =>
      let p1 := apply_price p price
      if check_stop_loss_take_profit p1 then
        update_positions_loop market rest (close_stats st p1)
      else
        let r := update_positions_loop market rest st
        ((sym, p1) :: r.1, r.2)
    | none =>
      let r := update_positions_loop market rest st
      ((sym, p) :: r.1, r.2)

/-- The mutable state of a `RiskManager` touched by `update_positions`. -/
structure RMState where
  positions : List (String × Position)
  daily_stats : DailyStats
  portfolio_history : List PortfolioState

/-- The `PortfolioState` produced (appended to `portfolio_history` and saved)
by one call of `RiskManager.update_positions` (risk_management.py lines
205-228). -/
noncomputable def produced_state (s : RMState) (market : List (String × ℚ)) :
    PortfolioState :=
  let r := update_positions_loop market s.positions s.daily_stats
  get_portfolio_state r.1 r.2 s.portfolio_history

/-- `RiskManager.update_positions` (risk_management.py lines 205-228) as a
state transformer: refresh/close positions, recompute the portfolio state,
append it to the history. -/
noncomputable def update_positions (s : RMState) (market : List (String × ℚ)) :
    RMState :=
  let r := update_positions_loop market s.positions s.daily_stats
  { positions := r.1
    daily_stats := get_portfolio_state_stats r.1 r.2
    portfolio_history :=
      s.portfolio_history ++ [get_portfolio_state r.1 r.2 s.portfolio_history] }

/-- The pure per-position effect of the `update_positions` loop when no close
triggers: refresh price and PnL when the symbol is in the market map, leave
the position alone otherwise. -/
def update_one (market : List (String × ℚ)) (pr : String × Position) :
    String × Position :=
  match dict_get market pr.1 with
  | some price => (pr.1, apply_price pr.2 price)
  | none => pr

/-- Whether `update_positions` would close this position under the given
market map: the stop-loss/take-profit check evaluated on the refreshed
position (only positions whose symbol is in the map are checked). -/
def trigger_after (market : List (String × ℚ)) (pr : String × Position) : Bool :=
  match dict_get market pr.1 with
  | some price => check_stop_loss_take_profit (apply_price pr.2 price)
  | none => false

/-- Every field of a `PortfolioState` except `risk_metrics`, bundled for
comparison across `update_positions` calls. -/
def PortfolioState.core (st : PortfolioState) :
    ℚ × ℚ × ℚ × Option ℚ × ℚ × ℚ × List (String × Position) × ℚ ×
      List (String × ℚ) :=
  (st.total_equity, st.used_margin, st.free_margin, st.margin_level,
   st.total_pnl, st.daily_pnl, st.positions, st.drawdown, st.exposure)

end RM

namespace TE

/-- `min_maintenance_margin` from `Config.RISK_CONFIG` (config.py line 49),
read by the executor via `Config.get_risk_config()`. -/
def min_maintenance_margin : ℚ := 1 / 200

/-- `TradeSignal` as consumed by `TradeExecutor` (agent_system.TradeSignal):
the `metadata` keys the executor reads (`leverage`, `margin_type`) are lifted
to optional fields. -/
structure TradeSignal where
  symbol : String
  direction : String
  size : ℚ
  stop_loss : Option ℚ
  take_profit : Option ℚ
  agent_name : String
  confidence : ℚ
  leverage : Option ℚ
  margin_type : Option String
  deriving DecidableEq

/-- A Python float-typed attribute that may instead hold a non-float object:
`ContractPosition.funding_rate` receives the coroutine object returned by the
un-awaited async call at trade_executor.py line 214. -/
inductive PyFloat where
  | num (q : ℚ)
  | coroutine
  deriving DecidableEq

/-- `trade_executor.Position` (trade_executor.py lines 17-28); `open_time` and
`metadata` omitted (datetime / opaque dict). -/
structure Position where
  symbol : String
  direction : String
  size : ℚ
  entry_price : ℚ
  stop_loss : Option ℚ
  take_profit : Option ℚ
  agent_name : String
  deriving DecidableEq

/-- `trade_executor.ContractPosition` (trade_executor.py lines 30-47);
`next_funding_time`, `open_time` and `metadata` omitted. -/
structure ContractPosition where
  symbol : String
  direction : String
  size : ℚ
  entry_price : ℚ
  leverage : ℚ
  margin_type : String
  liquidation_price : ℚ
  maintenance_margin : ℚ
  funding_rate : PyFloat
  agent_name : String
  stop_loss : Option ℚ
  take_profit : Option ℚ
  deriving DecidableEq

/-- The dynamically typed first argument of
`TradeExecutor._calculate_liquidation_price`: the signature expects a
`TradeSignal`, but `monitor_positions` (line 1263) passes the
`ContractPosition` instead. -/
inductive SignalOrPosition where
  | signal (s : TradeSignal)
  | position (p : ContractPosition)
  deriving DecidableEq

/-- Python truthiness of an optional float: `None` and `0.0` are falsy. -/
def pyTruthy : Option ℚ → Bool
  | none => false
  | some v => v ≠ 0

/-- `TradeExecutor._calculate_liquidation_price` (trade_executor.py lines
293-328).  The `isinstance(signal, TradeSignal)` guard (line 296) raises
`TypeError` when a `ContractPosition` is passed; the remaining validations
raise `ValueError`.  The maintenance margin comes from the risk config
(`0.005`). -/
def calculate_liquidation_price (arg : SignalOrPosition) (current_price : ℚ) :
    Except String ℚ :=
  match arg with
  | .position _ => .error "TypeError"
  | .signal sig =>
    if current_price ≤ 0 then .error "ValueError"
    else
      match sig.leverage with
      | none => .error "ValueError"
      | some leverage =>
        if leverage ≤ 0 then .error "ValueError"
        else
          match sig.margin_type with
          | none => .error "ValueError"
          | some margin_type =>
            if margin_type ≠ "isolated" ∧ margin_type ≠ "cross" then .error "ValueError"
            else
              let liquidation_price :=
                if sig.direction = "buy" then
                  current_price * (1 - 1 / leverage + min_maintenance_margin)
                else
                  current_price * (1 + 1 / leverage - min_maintenance_margin)
              if liquidation_price ≤ 0 then .error "ValueError"
              else .ok liquidation_price

/-- `TradeExecutor._calculate_maintenance_margin` (trade_executor.py lines
330-347): invalid inputs raise a `ValueError` that its own handler turns into
the `size * price * 0.05` fallback; valid inputs use the configured
`0.005` rate. -/
def calculate_maintenance_margin (size price : ℚ) : ℚ :=
  if size ≤ 0 ∨ price ≤ 0 then size * price * (1/20)
  else size * price * min_maintenance_margin

/-- The awaited semantics of `TradeExecutor._get_funding_rate`
(trade_executor.py lines 349-374).  Each feed result is `Except Unit
(Option ℚ)`: `.error` models a raised exception (caught and logged), `some v`
a returned float.  `if not funding_rate` / `if funding_rate and ...` use
Python truthiness, so a returned `0.0` is treated like a failure; a dYdX
exception leaves the previous (Hyperliquid) value in place.  The fallback is
`0.0001` (0.01% per 8h). -/
def get_funding_rate (hl dy : Except Unit (Option ℚ)) : ℚ :=
  let fr1 : Option ℚ := match hl with | .ok v => v | .error _ => none
  let fr2 : Option ℚ :=
    if pyTruthy fr1 then fr1
    else match dy with | .ok v => v | .error _ => fr1
  if pyTruthy fr2 then fr2.getD 0 else 1/10000

/-- `TradeExecutor._calculate_position_size` (trade_executor.py lines
650-710) with the default `risk_based` method and the stubbed account balance
of 100000 (line 1097).  Every raised validation error is caught: the inner
handler (line 699) falls back to `signal.size`, the outer one (line 708)
returns `0.0`.  `if not signal.stop_loss` uses Python truthiness, so a
stop-loss of `0.0` also selects the no-stop-loss branch.  The
`isinstance(signal, ContractPosition)` leverage branch (line 692) is dead:
the argument is always a `TradeSignal`. -/
def calculate_position_size (sig : TradeSignal) (current_price : ℚ) : ℚ :=
  if current_price ≤ 0 then 0
  else if ¬ pyTruthy sig.stop_loss then
    if sig.size ≤ 0 then 0 else sig.size
  else
    let sl := sig.stop_loss.getD 0
    if sl ≤ 0 then 0
    else
      let risk_amount : ℚ := (2/100) * 100000
      let price_risk := qabs (current_price - sl)
      if price_risk ≤ 0 then
        if sig.size ≤ 0 then 0 else sig.size
      else
        let position_size := risk_amount / price_risk
        let max_position_size : ℚ := 100000 * (1/2)
        qmin position_size max_position_size

/-- `TradeExecutor._open_new_contract_position` (trade_executor.py lines
190-262).  All validations mirror the source.  The `funding_rate` assignment
(line 214) calls the `async` method `_get_funding_rate` **without `await`**,
so the attribute stores the coroutine object, not a rate. -/
def open_new_contract_position (sig : TradeSignal) (current_price : ℚ) :
    Except String ContractPosition :=
  if current_price ≤ 0 then .error "ValueError"
  else
    let size := calculate_position_size sig current_price
    if size ≤ 0 then .error "ValueError"
    else
      match sig.leverage with
      | none => .error "ValueError"
      | some leverage =>
        if leverage ≤ 0 then .error "ValueError"
        else
          match sig.margin_type with
          | none => .error "ValueError"
          | some margin_type =>
            if margin_type ≠ "isolated" ∧ margin_type ≠ "cross" then .error "ValueError"
            else
              match calculate_liquidation_price (.signal sig) current_price with
              | .error e => .error e
              | .ok liquidation_price =>
                let maintenance_margin := calculate_maintenance_margin size current_price
                if liquidation_price ≤ 0 then .error "ValueError"
                else if maintenance_margin ≤ 0 then .error "ValueError"
                else
                  .ok { symbol := sig.symbol
                        direction := sig.direction
                        size := size
                        entry_price := current_price
                        leverage := leverage
                        margin_type := margin_type
                        liquidation_price := liquidation_price
                        maintenance_margin := maintenance_margin
                        funding_rate := PyFloat.coroutine
                        agent_name := sig.agent_name
                        stop_loss := sig.stop_loss
                        take_profit := sig.take_profit }

/-- `TradeExecutor._check_stop_loss` (trade_executor.py lines 1557-1596):
validation failures return `False`; otherwise long/short boundary
comparison. -/
def check_stop_loss (direction : String) (stop_loss : Option ℚ)
    (current_price : ℚ) : Bool :=
  if current_price ≤ 0 then false
  else
    match stop_loss with
    | none => false
    | some sl =>
      if sl ≤ 0 then false
      else if direction ≠ "buy" ∧ direction ≠ "sell" then false
      else (direction = "buy" ∧ current_price ≤ sl) ∨
           (direction = "sell" ∧ current_price ≥ sl)

/-- `TradeExecutor._check_take_profit` (trade_executor.py lines 1598-1637). -/
def check_take_profit (direction : String) (take_profit : Option ℚ)
    (current_price : ℚ) : Bool :=
  if current_price ≤ 0 then false
  else
    match take_profit with
    | none => false
    | some tp =>
      if tp ≤ 0 then false
      else if direction ≠ "buy" ∧ direction ≠ "sell" then false
      else (direction = "buy" ∧ current_price ≥ tp) ∨
           (direction = "sell" ∧ current_price ≤ tp)

/-- One `monitor_positions` evaluation of a single contract position against a
tick price (trade_executor.py lines 1241-1326), returning the close reason if
the position is closed this tick.  The contract-maintenance block (lines
1251-1315) updates the funding rate, then recomputes the liquidation price via
`self._calculate_liquidation_price(position, current_price)` (line 1263) —
which raises `TypeError` (the method requires a `TradeSignal`), so the block
is aborted by the handler at line 1314 and the liquidation-boundary close
(lines 1305-1309) is skipped; control falls through to the stop-loss and
take-profit checks (lines 1317-1326). -/
def monitor_contract_tick (p : ContractPosition) (current_price funding : ℚ) :
    Option String :=
  if current_price ≤ 0 then none
  else
    let contract_block : Except String (Option String) := do
      let p1 := { p with funding_rate := PyFloat.num funding }
      let newLiq ← calculate_liquidation_price (.position p1) current_price
      let p2 :=
        if 0 < newLiq then { p1 with liquidation_price := newLiq } else p1
      let p3 :=
        { p2 with maintenance_margin :=
            calculate_maintenance_margin p2.size current_price }
      if (p3.direction = "buy" ∧ current_price ≤ p3.liquidation_price) ∨
         (p3.direction = "sell" ∧ current_price ≥ p3.liquidation_price) then
        pure (some "LIQUIDATION")
      else
        pure none
    match contract_block with
    | .ok (some reason) => some reason
    | _ =>
      if check_stop_loss p.direction p.stop_loss current_price then
        some "STOP_LOSS"
      else if check_take_profit p.direction p.take_profit current_price then
        some "TAKE_PROFIT"
      else none

/-- The `Position` value built by `TradeExecutor._open_new_position`
(trade_executor.py lines 500-510), sized through
`_calculate_position_size`. -/
def mk_spot_position (sig : TradeSignal) (current_price : ℚ) : Position :=
  { symbol := sig.symbol
    direction := sig.direction
    size := calculate_position_size sig current_price
    entry_price := current_price
    stop_loss := sig.stop_loss
    take_profit := sig.take_profit
    agent_name := sig.agent_name }

/-- `TradeExecutor._open_new_position` (trade_executor.py lines 489-533): no
occupancy check — when fewer than `max_positions = 5` entries exist, the new
position is assigned into the dict, silently replacing any existing entry for
the same symbol; otherwise the book is left unchanged (no exception either
way). -/
def open_new_position (positions : List (String × Position))
    (sig : TradeSignal) (current_price : ℚ) : List (String × Position) :=
  if 5 ≤ positions.length then positions
  else dict_insert positions sig.symbol (mk_spot_position sig current_price)

/-- Funding-rate component of the source quality score
(trade_executor.py line 1799). -/
def funding_score (funding_rate : ℚ) : ℚ :=
  40 * (1 - qmin (qabs funding_rate) (1/100) / (1/100))

/-- Liquidity component of the source quality score
(trade_executor.py line 1803). -/
def liquidity_score (liquidity : ℚ) : ℚ :=
  40 * qmin (liquidity / 1000000) 1

/-- Latency component of the source quality score
(trade_executor.py line 1808). -/
def latency_score (response_time : ℚ) : ℚ :=
  20 * (1 - qmin response_time 1)

/-- The 0-100 quality score of `TradeExecutor._is_better_price_source`
(trade_executor.py lines 1795-1809); the latency component is added only when
a response time was passed. -/
def source_quality_score (funding_rate liquidity : ℚ)
    (response_time : Option ℚ) : ℚ :=
  funding_score funding_rate + liquidity_score liquidity +
    match response_time with
    | some rt => latency_score rt
    | none => 0

/-- `TradeExecutor._is_better_price_source` (trade_executor.py lines
1736-1824).  `data` is the fetched (funding rate, liquidity) pair, `none` when
the fetch raised or returned non-numbers; non-DEX sources (line 1784) and
candidates deviating more than 5% from the current best (line 1756) are
rejected before scoring; a candidate wins exactly when its score reaches
60. -/
def is_better_price_source (new_price current_price : ℚ) (isDex : Bool)
    (data : Option (ℚ × ℚ)) (response_time : Option ℚ) : Bool :=
  if new_price ≤ 0 then false
  else if current_price ≤ 0 then false
  else if qabs (new_price - current_price) / current_price > 1/20 then false
  else if ¬ isDex then false
  else
    match data with
    | none => false
    | some (funding_rate, liquidity) =>
      if liquidity < 0 then false
      else source_quality_score funding_rate liquidity response_time ≥ 60

/-- One price source as seen by `TradeExecutor._get_current_price`: its name,
fetch result (`none` = raised), response time, whether it is a DEX source
(Hyperliquid/dYdX), and its funding/liquidity data fetch result. -/
structure PriceCandidate where
  name : String
  price : Option ℚ
  response_time : ℚ
  isDex : Bool
  data : Option (ℚ × ℚ)
  deriving DecidableEq

/-- Price validity filter of `_get_current_price` (trade_executor.py lines
1662-1669): positive and at most 10^9. -/
def valid_price (c : PriceCandidate) : Option ℚ :=
  match c.price with
  | none => none
  | some p => if p ≤ 0 ∨ p > 1000000000 then none else some p

/-- The best-source fold of `TradeExecutor._get_current_price`
(trade_executor.py lines 1656-1683): the first source with a valid price
becomes the best unconditionally; a later source replaces it only when
`_is_better_price_source` returns true.  Sources are visited in the fixed
priority order Hyperliquid, dYdX, market-data service. -/
def select_best : Option (ℚ × String) → List PriceCandidate → Option (ℚ × String)
  | best, [] => best
  | best, c :: rest =>
    match valid_price c with
    | none => select_best best rest
    | some pr =>
      match best with
      | none => select_best (some (pr, c.name)) rest
      | some (bpr, bn) =>
        if is_better_price_source pr bpr c.isDex c.data (some c.response_time) then
          select_best (some (pr, c.name)) rest
        else
          select_best (some (bpr, bn)) rest

/-- The first source with a valid price, in listed order. -/
def first_valid : List PriceCandidate → Option (ℚ × String)
  | [] => none
  | c :: rest =>
    match valid_price c with
    | some pr => some (pr, c.name)
    | none => first_valid rest

/-- The monitoring-loop bookkeeping of `TradeExecutor.monitor_positions`
(trade_executor.py lines 1186-1555): error counter, error backoff, the
adaptive interval, the last-health-check clock and the current clock (seconds,
advanced by the sleeps). -/
structure MonitorState where
  consecutive_errors : ℕ
  error_backoff : ℚ
  monitoring_interval : ℚ
  last_health_check : ℚ
  now : ℚ
  deriving DecidableEq

/-- Initial loop state (trade_executor.py lines 1188-1193), clock at 0. -/
def MonitorState.init : MonitorState :=
  { consecutive_errors := 0, error_backoff := 1, monitoring_interval := 1,
    last_health_check := 0, now := 0 }

/-- One iteration of the monitoring loop with no open positions, returning the
new state and the seconds slept.  First the health check (lines 1197-1221):
when 60s have passed it resets the error counter and backoff (lines
1213-1217) and records the check time.  A failing iteration takes the outer
handler (lines 1546-1555): the error counter is incremented, the backoff
doubles capped at 30s, and the loop sleeps the backoff.  A clean iteration
with an empty book sleeps `monitoring_interval` (lines 1223-1226). -/
def monitor_step (s : MonitorState) (tick_fails : Bool) : MonitorState × ℚ :=
  let s1 :=
    if s.now - s.last_health_check ≥ 60 then
      if 0 < s.consecutive_errors then
        { s with consecutive_errors := 0, error_backoff := 1,
                  last_health_check := s.now }
      else { s with last_health_check := s.now }
    else s
  if tick_fails then
    let backoff := qmin (s1.error_backoff * 2) 30
    ({ s1 with consecutive_errors := s1.consecutive_errors + 1,
               error_backoff := backoff, now := s1.now + backoff },
     backoff)
  else
    ({ s1 with now := s1.now + s1.monitoring_interval }, s1.monitoring_interval)

/-- Run the monitoring loop over a list of tick outcomes (`true` = the
iteration fails), collecting the sleep durations. -/
def monitor_run (s : MonitorState) : List Bool → MonitorState × List ℚ
  | [] => (s, [])
  | b :: bs =>
    let r := monitor_step s b
    let rest := monitor_run r.1 bs
    (rest.1, r.2 :: rest.2)

end TE

namespace Scenario

/-- The `RiskConfig` values of `Config.RISK_CONFIG` (config.py lines 35-53). -/
def cfg0 : RM.RiskConfig :=
  { max_position_size := 1/10, max_drawdown := 1/5, daily_loss_limit := 1/20,
    position_limit := 10, risk_per_trade := 1/100, leverage_limit := 3,
    correlation_limit := 7/10, min_diversification := 3, max_leverage := 3,
    max_position_value := 100000 }

/-- Scenario B of the spec: long isolated contract position, entry 50000,
leverage 10 (maintenance margin rate 0.005 is the manager's constant). -/
def pB : RM.ContractPosition :=
  { symbol := "BTC/USDT", direction := "long", size := 1, entry_price := 50000,
    current_price := 50000, stop_loss := 49000, take_profit := 52000,
    unrealized_pnl := 0, realized_pnl := 0, margin_used := 0, leverage := 10,
    liquidation_price := 0, margin_type := "isolated", maintenance_margin := 0,
    funding_rate := 0 }

/-- The same position at leverage 200 = 1/0.005, the boundary at which the
isolated-margin liquidation formula stops being on the loss side. -/
def p200 : RM.ContractPosition := { pB with leverage := 200 }

/-- A spot position for the `update_positions` runs: long 1000 units at entry
100, with stop-loss and take-profit far out of reach of the test prices. -/
def P0 : RM.Position :=
  { symbol := "BTC", direction := "buy", size := 1000, entry_price := 100,
    current_price := 100, stop_loss := 1, take_profit := 1000000,
    unrealized_pnl := 0, realized_pnl := 0, margin_used := 0 }

/-- Fresh risk manager holding `P0`. -/
def rm0 : RM.RMState :=
  { positions := [("BTC", P0)], daily_stats := RM.DailyStats.init,
    portfolio_history := [] }

/-- Market map: BTC at 110. -/
def m110 : List (String × ℚ) := [("BTC", 110)]

/-- Market map: BTC at 100. -/
def m100 : List (String × ℚ) := [("BTC", 100)]

/-- The manager after two warm-up `update_positions` calls (price 110, then
100): its history holds two states with different equities (110000, 100000),
so risk metrics start being computed from the next call on. -/
noncomputable def rm2 : RM.RMState :=
  RM.update_positions (RM.update_positions rm0 m110) m100

/-- The manager after the first of the two back-to-back calls with the same
price map `m100`. -/
noncomputable def rm3 : RM.RMState := RM.update_positions rm2 m100

/-- A contract signal as accepted by the executor: buy, leverage 2, isolated,
stop-loss 49000. -/
def sigC : TE.TradeSignal :=
  { symbol := "BTC/USDT", direction := "buy", size := 1, stop_loss := some 49000,
    take_profit := some 51000, agent_name := "agent-1", confidence := 1,
    leverage := some 2, margin_type := some "isolated" }

/-- Scenario D of the spec: a long contract position with stop-loss 49000 and
liquidation price 48000, monitored at a tick price of 47000 that has crossed
both boundaries. -/
def pD : TE.ContractPosition :=
  { symbol := "BTC/USDT", direction := "buy", size := 1, entry_price := 50000,
    leverage := 10, margin_type := "isolated", liquidation_price := 48000,
    maintenance_margin := 250, funding_rate := .num (1/10000),
    agent_name := "agent-1", stop_loss := some 49000, take_profit := some 52000 }

/-- An existing spot position occupying the symbol `BTC/USDT`. -/
def oldSpot : TE.Position :=
  { symbol := "BTC/USDT", direction := "buy", size := 3, entry_price := 40000,
    stop_loss := some 39000, take_profit := some 45000, agent_name := "agent-0" }

/-- A spot book already holding a position on `BTC/USDT`. -/
def book1 : List (String × TE.Position) := [("BTC/USDT", oldSpot)]

/-- A buy signal for the already-occupied symbol `BTC/USDT`. -/
def sigS : TE.TradeSignal :=
  { symbol := "BTC/USDT", direction := "buy", size := 1, stop_loss := some 49000,
    take_profit := some 51000, agent_name := "agent-1", confidence := 1,
    leverage := none, margin_type := none }

/-- A non-DEX price candidate (`_is_better_price_source` rejects it before
scoring), used to exercise the fallback selection. -/
def cMD : TE.PriceCandidate :=
  { name := "Market Data Service", price := some 100, response_time := 1/2,
    isDex := false, data := none }

end Scenario

/-! ## Helper lemmas -/

theorem qmax_eq (a b : ℚ) : qmax a b = max a b := by
  unfold qmax
  rcases le_total a b with h | h
  · rw [if_pos h, max_eq_right h]
  · rcases eq_or_lt_of_le h with rfl | hlt
    · simp
    · rw [if_neg (not_le_of_lt hlt), max_eq_left h]

theorem qmin_eq (a b : ℚ) : qmin a b = min a b := by
  unfold qmin
  rcases le_total a b with h | h
  · rw [if_pos h, min_eq_left h]
  · rcases eq_or_lt_of_le h with rfl | hlt
    · simp
    · rw [if_neg (not_le_of_lt hlt), min_eq_right h]

theorem qabs_eq (a : ℚ) : qabs a = |a| := by
  unfold qabs
  rcases lt_or_le a 0 with h | h
  · rw [if_pos h, abs_of_neg h]
  · rw [if_neg (not_lt_of_le h), abs_of_nonneg h]

theorem qmax_qmax_self (a b : ℚ) : qmax (qmax a b) b = qmax a b := by
  simp only [qmax_eq]
  rw [max_comm (max a b) b, max_eq_right (le_max_right a b)]

/-! ## C1 -/

/-- C1 counterexample: the claim "for every ContractPosition with
leverage ≥ 1, the liquidation price is on the loss side of the entry" fails at
leverage 200 = 1/maintenanceMarginRate: the long isolated formula returns
exactly the entry price, not a price below it. -/
theorem c1_counterexample :
    RM.calculate_liquidation_price Scenario.p200 = .ok Scenario.p200.entry_price ∧
    Scenario.p200.direction = "long" ∧
    Scenario.p200.margin_type = "isolated" ∧
    (1 : ℚ) ≤ Scenario.p200.leverage ∧
    ¬ (Scenario.p200.entry_price < Scenario.p200.entry_price) := by
  refine ⟨?_, rfl, rfl, ?_, lt_irrefl _⟩
  · norm_num [RM.calculate_liquidation_price, Scenario.p200, Scenario.pB,
      RM.min_maintenance_margin]
  · norm_num [Scenario.p200, Scenario.pB]

/-- C1 (amended): for an isolated-margin ContractPosition with positive entry
price and 1 ≤ leverage < 1/maintenanceMarginRate (= 200 at the hardcoded
0.005 rate), `_calculate_liquidation_price` returns a value strictly on the
loss side of the entry price: below it for a long, above it for a short. -/
theorem c1_liquidation_loss_side (p : RM.ContractPosition)
    (hiso : p.margin_type = "isolated") (he : 0 < p.entry_price)
    (hl : 1 ≤ p.leverage)
    (hb : p.leverage * RM.min_maintenance_margin < 1) :
    (p.direction = "long" →
      ∃ v, RM.calculate_liquidation_price p = .ok v ∧ v < p.entry_price) ∧
    (p.direction = "short" →
      ∃ v, RM.calculate_liquidation_price p = .ok v ∧ p.entry_price < v) := by
  have hl0 : (0 : ℚ) < p.leverage := lt_of_lt_of_le one_pos hl
  have hlne : p.leverage ≠ 0 := ne_of_gt hl0
  have hkey : RM.min_maintenance_margin < 1 / p.leverage := by
    rw [lt_div_iff₀ hl0]
    calc RM.min_maintenance_margin * p.leverage
        = p.leverage * RM.min_maintenance_margin := mul_comm _ _
      _ < 1 := hb
  constructor
  · intro hdir
    refine ⟨p.entry_price * (1 - 1 / p.leverage + RM.min_maintenance_margin),
      ?_, ?_⟩
    · simp [RM.calculate_liquidation_price, hiso, hlne, hdir]
    · have hfac : 1 - 1 / p.leverage + RM.min_maintenance_margin < 1 := by
        linarith
      calc p.entry_price * (1 - 1 / p.leverage + RM.min_maintenance_margin)
          < p.entry_price * 1 := by
            exact mul_lt_mul_of_pos_left hfac he
        _ = p.entry_price := mul_one _
  · intro hdir
    refine ⟨p.entry_price * (1 + 1 / p.leverage - RM.min_maintenance_margin),
      ?_, ?_⟩
    · simp [RM.calculate_liquidation_price, hiso, hlne, hdir]
    · have hfac : 1 < 1 + 1 / p.leverage - RM.min_maintenance_margin := by
        linarith
      calc p.entry_price = p.entry_price * 1 := (mul_one _).symm
        _ < p.entry_price * (1 + 1 / p.leverage - RM.min_maintenance_margin) :=
            mul_lt_mul_of_pos_left hfac he

/-- C1 witness: the amended loss-side statement discharged at the Scenario B
position (long, entry 50000, leverage 10, isolated). -/
theorem c1_liquidation_loss_side_witness :
    (Scenario.pB.direction = "long" →
      ∃ v, RM.calculate_liquidation_price Scenario.pB = .ok v ∧
        v < Scenario.pB.entry_price) ∧
    (Scenario.pB.direction = "short" →
      ∃ v, RM.calculate_liquidation_price Scenario.pB = .ok v ∧
        Scenario.pB.entry_price < v) :=
  c1_liquidation_loss_side Scenario.pB rfl
    (by norm_num [Scenario.pB]) (by norm_num [Scenario.pB])
    (by norm_num [Scenario.pB, RM.min_maintenance_margin])

/-! ## C2 -/

/-- C2: for an isolated-margin contract position with positive entry price and
leverage, `_calculate_liquidation_price` returns
entry×(1 − 1/leverage + maintenanceMarginRate) for a long and
entry×(1 + 1/leverage − maintenanceMarginRate) for a short; in particular the
Scenario B position (long, entry 50000, leverage 10, rate 0.005) gets
liquidation price 45250. -/
theorem c2_liquidation_formula (p : RM.ContractPosition)
    (hiso : p.margin_type = "isolated") (he : 0 < p.entry_price)
    (hl : 0 < p.leverage) :
    RM.calculate_liquidation_price p =
      .ok (if p.direction = "long" then
             p.entry_price * (1 - 1 / p.leverage + RM.min_maintenance_margin)
           else
             p.entry_price * (1 + 1 / p.leverage - RM.min_maintenance_margin)) ∧
    RM.calculate_liquidation_price Scenario.pB = .ok 45250 := by
  constructor
  · have hlne : p.leverage ≠ 0 := ne_of_gt hl
    by_cases hd : p.direction = "long" <;>
      simp [RM.calculate_liquidation_price, hiso, hlne, hd]
  · norm_num [RM.calculate_liquidation_price, Scenario.pB,
      RM.min_maintenance_margin]

/-- C2 witness: the formula discharged at the Scenario B position. -/
theorem c2_liquidation_formula_witness :
    RM.calculate_liquidation_price Scenario.pB =
      .ok (if Scenario.pB.direction = "long" then
             Scenario.pB.entry_price *
               (1 - 1 / Scenario.pB.leverage + RM.min_maintenance_margin)
           else
             Scenario.pB.entry_price *
               (1 + 1 / Scenario.pB.leverage - RM.min_maintenance_margin)) ∧
    RM.calculate_liquidation_price Scenario.pB = .ok 45250 :=
  c2_liquidation_formula Scenario.pB rfl
    (by norm_num [Scenario.pB]) (by norm_num [Scenario.pB])

/-! ## C3 -/

/-- C3: evaluating the monitoring tick on the Scenario D position (long,
stop-loss 49000, liquidation price 48000) at price 47000 — which has crossed
both boundaries — closes with reason STOP_LOSS, not LIQUIDATION: the
liquidation-price recompute at trade_executor.py line 1263 passes the
`ContractPosition` where `_calculate_liquidation_price` demands a
`TradeSignal`, the raised `TypeError` aborts the contract block, and the
liquidation-boundary close is never evaluated. -/
theorem c3_liquidation_priority_bug :
    TE.monitor_contract_tick Scenario.pD 47000 (1/10000) = some "STOP_LOSS" ∧
    some "STOP_LOSS" ≠ some "LIQUIDATION" ∧
    Scenario.pD.stop_loss = some 49000 ∧
    Scenario.pD.liquidation_price = 48000 ∧
    (47000 : ℚ) ≤ Scenario.pD.liquidation_price ∧
    TE.calculate_liquidation_price (.position Scenario.pD) 47000 =
      .error "TypeError" := by
  refine ⟨?_, by simp, rfl, rfl, by norm_num [Scenario.pD], rfl⟩
  norm_num [TE.monitor_contract_tick, TE.calculate_liquidation_price,
    Scenario.pD, TE.check_stop_loss, TE.check_take_profit, Except.bind, bind]

/-! ## C4 -/

/-- C4: for positive price, nonnegative stop-loss with price ≠ stopLoss and
nonnegative volatility, `calculate_position_size` returns
min((riskPerTrade × equity × f)/|price − stopLoss|,
maxPositionSize × equity / price) with f = 0.02/volatility when
volatility > 0.02 and f = 1 otherwise; with the repo's config
(riskPerTrade = 0.01), a fresh portfolio (equity 100000), price 50000 and
stop-loss 49000 the pre-cap size is 1000/1000 = 1 and the returned size is
the cap maxPositionSize × equity / price = 0.2. -/
theorem c4_position_size_formula (cfg : RM.RiskConfig)
    (ps : List (String × RM.Position)) (st : RM.DailyStats)
    (price stop_loss volatility : ℚ)
    (hp : 0 < price) (hs : 0 ≤ stop_loss) (hne : price ≠ stop_loss)
    (hv : 0 ≤ volatility) :
    RM.calculate_position_size cfg ps st price stop_loss volatility =
      .ok (min
        ((cfg.risk_per_trade * RM.portfolio_total_equity ps st *
            (if volatility > 1/50 then (1/50) / volatility else 1)) /
          |price - stop_loss|)
        (cfg.max_position_size * RM.portfolio_total_equity ps st / price)) ∧
    RM.calculate_position_size Scenario.cfg0 [] RM.DailyStats.init
        50000 49000 0 = .ok (1/5) ∧
    (Scenario.cfg0.risk_per_trade *
        RM.portfolio_total_equity [] RM.DailyStats.init * 1) /
      |(50000 : ℚ) - 49000| = 1 := by
  refine ⟨?_, ?_, ?_⟩
  · have h1 : ¬ (qabs (price - stop_loss) = 0) := by
      rw [qabs_eq]
      exact abs_ne_zero.mpr (sub_ne_zero.mpr hne)
    have h2 : ¬ (price = 0) := ne_of_gt hp
    simp only [RM.calculate_position_size]
    rw [if_neg h1, if_neg h2, qmin_eq, qabs_eq]
    congr 2
    ring
  · norm_num [RM.calculate_position_size, Scenario.cfg0, RM.DailyStats.init,
      RM.portfolio_total_equity, RM.total_unrealized, qabs, qmin]
  · norm_num [Scenario.cfg0, RM.portfolio_total_equity, RM.total_unrealized,
      RM.DailyStats.init]

/-- C4 witness: the sizing formula discharged at the repo config, a fresh
portfolio, price 50000, stop-loss 49000 and volatility 0. -/
theorem c4_position_size_formula_witness :
    RM.calculate_position_size Scenario.cfg0 [] RM.DailyStats.init
        50000 49000 0 =
      .ok (min
        ((Scenario.cfg0.risk_per_trade *
            RM.portfolio_total_equity [] RM.DailyStats.init *
            (if (0 : ℚ) > 1/50 then (1/50) / 0 else 1)) /
          |(50000 : ℚ) - 49000|)
        (Scenario.cfg0.max_position_size *
          RM.portfolio_total_equity [] RM.DailyStats.init / 50000)) ∧
    RM.calculate_position_size Scenario.cfg0 [] RM.DailyStats.init
        50000 49000 0 = .ok (1/5) ∧
    (Scenario.cfg0.risk_per_trade *
        RM.portfolio_total_equity [] RM.DailyStats.init * 1) /
      |(50000 : ℚ) - 49000| = 1 :=
  c4_position_size_formula Scenario.cfg0 [] RM.DailyStats.init 50000 49000 0
    (by norm_num) (by norm_num) (by norm_num) (by norm_num)

/-! ## C6 -/

/-- Looking up the inserted key finds the inserted value. -/
theorem dict_get_insert {α : Type} (l : List (String × α)) (k : String) (v : α) :
    dict_get (dict_insert l k v) k = some v := by
  induction l with
  | nil => simp [dict_insert, dict_get]
  | cons hd tl ih =>
    obtain ⟨k2, w⟩ := hd
    by_cases h : k2 = k
    · simp [dict_insert, h, dict_get]
    · simp [dict_insert, h, dict_get, ih]

/-- A key of the book after an insert is the inserted key or an old key. -/
theorem mem_keys_dict_insert {α : Type} (l : List (String × α)) (k : String)
    (v : α) (a : String)
    (hmem : a ∈ (dict_insert l k v).map Prod.fst) :
    a = k ∨ a ∈ l.map Prod.fst := by
  induction l with
  | nil =>
    simp only [dict_insert, List.map_cons, List.map_nil] at hmem
    exact Or.inl (List.mem_singleton.mp hmem)
  | cons hd tl ih =>
    obtain ⟨k2, w⟩ := hd
    simp only [dict_insert] at hmem
    by_cases h : k2 = k
    · rw [if_pos h] at hmem
      simp only [List.map_cons] at hmem
      rcases List.mem_cons.mp hmem with rfl | hm
      · exact Or.inl rfl
      · refine Or.inr ?_
        simp only [List.map_cons]
        exact List.mem_cons_of_mem _ hm
    · rw [if_neg h] at hmem
      simp only [List.map_cons] at hmem
      rcases List.mem_cons.mp hmem with rfl | hm
      · refine Or.inr ?_
        simp only [List.map_cons]
        exact List.mem_cons_self _ _
      · rcases ih hm with rfl | h3
        · exact Or.inl rfl
        · refine Or.inr ?_
          simp only [List.map_cons]
          exact List.mem_cons_of_mem _ h3

/-- Dict insertion preserves key uniqueness. -/
theorem nodup_keys_dict_insert {α : Type} (l : List (String × α)) (k : String)
    (v : α) (h : (l.map Prod.fst).Nodup) :
    ((dict_insert l k v).map Prod.fst).Nodup := by
  induction l with
  | nil => simp [dict_insert]
  | cons hd tl ih =>
    obtain ⟨k2, w⟩ := hd
    simp only [List.map_cons, List.nodup_cons] at h
    simp only [dict_insert]
    by_cases hk : k2 = k
    · rw [if_pos hk]
      simp only [List.map_cons, List.nodup_cons]
      subst hk
      exact h
    · rw [if_neg hk]
      simp only [List.map_cons, List.nodup_cons]
      refine ⟨?_, ih h.2⟩
      intro hmem
      rcases mem_keys_dict_insert tl k v k2 hmem with rfl | h3
      · exact hk rfl
      · exact h.1 h3

/-- C6 counterexample: on a book already holding a position for `BTC/USDT`,
`_open_new_position` succeeds and silently replaces the entry with the new
position (which differs from the old one) — no error is raised. -/
theorem c6_counterexample :
    TE.open_new_position Scenario.book1 Scenario.sigS 50000 =
      [("BTC/USDT", TE.mk_spot_position Scenario.sigS 50000)] ∧
    dict_get Scenario.book1 Scenario.sigS.symbol = some Scenario.oldSpot ∧
    TE.mk_spot_position Scenario.sigS 50000 ≠ Scenario.oldSpot := by
  refine ⟨?_, rfl, ?_⟩
  · norm_num [TE.open_new_position, Scenario.book1, Scenario.sigS, dict_insert]
  · intro h
    have h2 := congrArg TE.Position.entry_price h
    rw [show (TE.mk_spot_position Scenario.sigS 50000).entry_price = 50000
          from rfl,
        show Scenario.oldSpot.entry_price = 40000 from rfl] at h2
    norm_num at h2

/-- C6 (amended): `_open_new_position` never raises for an occupied symbol:
under the position limit it silently replaces the book entry with the newly
built position, and the one-position-per-symbol property of the book (key
uniqueness) is preserved by the operation. -/
theorem c6_open_silent_replace (ps : List (String × TE.Position))
    (sig : TE.TradeSignal) (current_price : ℚ) :
    ((ps.map Prod.fst).Nodup →
      ((TE.open_new_position ps sig current_price).map Prod.fst).Nodup) ∧
    (ps.length < 5 →
      dict_get (TE.open_new_position ps sig current_price) sig.symbol =
        some (TE.mk_spot_position sig current_price)) := by
  constructor
  · intro h
    unfold TE.open_new_position
    split
    · exact h
    · exact nodup_keys_dict_insert ps sig.symbol _ h
  · intro h
    unfold TE.open_new_position
    rw [if_neg (not_le_of_lt h)]
    exact dict_get_insert ps sig.symbol _

/-- C6 witness: the amended statement discharged at the occupied one-entry
book and the `BTC/USDT` buy signal. -/
theorem c6_open_silent_replace_witness :
    ((Scenario.book1.map Prod.fst).Nodup →
      ((TE.open_new_position Scenario.book1 Scenario.sigS 50000).map
          Prod.fst).Nodup) ∧
    (Scenario.book1.length < 5 →
      dict_get (TE.open_new_position Scenario.book1 Scenario.sigS 50000)
          Scenario.sigS.symbol =
        some (TE.mk_spot_position Scenario.sigS 50000)) :=
  c6_open_silent_replace Scenario.book1 Scenario.sigS 50000

/-! ## C7 -/

/-- C7: from a fresh monitoring loop, five consecutive failing ticks sleep
2, 4, 8, 16 and then min(1×2^5, 30) = 30 seconds (doubling backoff capped at
30), and the next clean tick sleeps the 1-second baseline again: by then 60
seconds have elapsed, so the health check resets the error counter and
backoff before the tick runs. -/
theorem c7_backoff_trace :
    (TE.monitor_run TE.MonitorState.init
        [true, true, true, true, true, false]).2 = [2, 4, 8, 16, 30, 1] ∧
    min ((1 : ℚ) * 2 ^ 5) 30 = 30 ∧
    (TE.monitor_run TE.MonitorState.init
        [true, true, true, true, true, false]).1.consecutive_errors = 0 ∧
    (TE.monitor_run TE.MonitorState.init
        [true, true, true, true, true, false]).1.error_backoff = 1 := by
  refine ⟨?_, by rw [min_def]; norm_num, ?_, ?_⟩ <;>
    norm_num [TE.monitor_run, TE.monitor_step, TE.MonitorState.init, qmin]

/-! ## C8 -/

/-- The funding component is at most 40 and reaches 40 only at rate 0. -/
theorem funding_score_le_40_iff (fr : ℚ) :
    TE.funding_score fr ≤ 40 ∧ (TE.funding_score fr = 40 ↔ fr = 0) := by
  unfold TE.funding_score
  rw [qmin_eq, qabs_eq]
  have hdiv : ∀ x : ℚ, x / (1/100) = x * 100 := fun x => by ring
  rw [hdiv]
  have hm : 0 ≤ min |fr| (1/100) := le_min (abs_nonneg fr) (by norm_num)
  refine ⟨by linarith, ?_, ?_⟩
  · intro h
    have hm0 : min |fr| (1/100) = 0 := by linarith
    by_contra hne
    have : (0 : ℚ) < min |fr| (1/100) :=
      lt_min (abs_pos.mpr hne) (by norm_num)
    linarith
  · intro h
    subst h
    rw [abs_zero, min_eq_left (by norm_num)]
    norm_num

/-- The gate conditions of `_is_better_price_source` for a DEX candidate with
fetched data: deviation at most 5%, nonnegative liquidity, score at least
60. -/
theorem is_better_price_source_iff (pr bpr fr liq rt : ℚ)
    (hp : 0 < pr) (hb : 0 < bpr) :
    (TE.is_better_price_source pr bpr true (some (fr, liq)) (some rt) = true ↔
      (qabs (pr - bpr) / bpr ≤ 1/20 ∧ 0 ≤ liq ∧
        60 ≤ TE.source_quality_score fr liq (some rt))) := by
  simp only [TE.is_better_price_source]
  rw [if_neg (not_le_of_lt hp), if_neg (not_le_of_lt hb)]
  by_cases h1 : qabs (pr - bpr) / bpr > 1/20
  · simp [h1, not_le_of_gt h1]
  · push_neg at h1
    by_cases h2 : liq < 0
    · simp [not_lt_of_le h1, h2, not_le_of_gt h2]
    · push_neg at h2
      simp [not_lt_of_le h1, not_lt_of_le h2, h1, h2, ge_iff_le]

/-- Once a best source is held, a candidate list in which
`_is_better_price_source` never accepts leaves the best unchanged. -/
theorem select_best_frozen (cands : List TE.PriceCandidate)
    (H : ∀ c ∈ cands, ∀ p b : ℚ,
      TE.is_better_price_source p b c.isDex c.data (some c.response_time) =
        false) :
    ∀ best : ℚ × String, TE.select_best (some best) cands = some best := by
  induction cands with
  | nil => intro best; rfl
  | cons c rest ih =>
    intro best
    obtain ⟨bpr, bn⟩ := best
    have hc := H c (List.mem_cons_self _ _)
    have hrest : ∀ c2 ∈ rest, ∀ p b : ℚ,
        TE.is_better_price_source p b c2.isDex c2.data
          (some c2.response_time) = false :=
      fun c2 h2 => H c2 (List.mem_cons_of_mem _ h2)
    cases hv : TE.valid_price c with
    | none => simp [TE.select_best, hv, ih hrest]
    | some pr => simp [TE.select_best, hv, hc pr bpr, ih hrest]

/-- When no candidate is ever accepted by `_is_better_price_source`, the fold
of `_get_current_price` returns the first source with a valid price — the
fixed priority order, not the fastest source. -/
theorem select_best_no_preferred (cands : List TE.PriceCandidate)
    (H : ∀ c ∈ cands, ∀ p b : ℚ,
      TE.is_better_price_source p b c.isDex c.data (some c.response_time) =
        false) :
    TE.select_best none cands = TE.first_valid cands := by
  induction cands with
  | nil => rfl
  | cons c rest ih =>
    have hrest : ∀ c2 ∈ rest, ∀ p b : ℚ,
        TE.is_better_price_source p b c2.isDex c2.data
          (some c2.response_time) = false :=
      fun c2 h2 => H c2 (List.mem_cons_of_mem _ h2)
    cases hv : TE.valid_price c with
    | none => simp [TE.select_best, TE.first_valid, hv, ih hrest]
    | some pr =>
      simp [TE.select_best, TE.first_valid, hv, select_best_frozen rest hrest]

/-- C8 counterexample: at |rate| = 0.01% the funding component of the quality
score is 39.6, not the full 40 points the claim asserts for rates up to
0.01%; consequently a source with full liquidity and zero latency scores
99.6, not 100. -/
theorem c8_counterexample :
    TE.funding_score (1/10000) = 198/5 ∧
    (198/5 : ℚ) ≠ 40 ∧
    qabs (1/10000) ≤ 1/10000 ∧
    TE.source_quality_score (1/10000) 1000000 (some 0) = 498/5 ∧
    (498/5 : ℚ) < 40 + 40 + 20 := by
  refine ⟨?_, by norm_num, by norm_num [qabs], ?_, by norm_num⟩
  · norm_num [TE.funding_score, qmin, qabs]
  · norm_num [TE.source_quality_score, TE.funding_score, TE.liquidity_score,
      TE.latency_score, qmin, qabs]

/-- C8 (amended): the 0-100 quality score is
40×(1 − min(|rate|, 1%)/1%) + 40×min(liquidity/1e6, 1) + 20×(1 − min(latency,
1s)) — the funding component reaches its full 40 points only at rate exactly
0; a candidate source is accepted exactly when it is a DEX source with valid
data, deviates at most 5% from the held best and scores ≥ 60; and when no
candidate is accepted, selection falls back to the first source in the fixed
priority order with a valid price (not the fastest). -/
theorem c8_quality_score_selection :
    (∀ fr : ℚ, TE.funding_score fr ≤ 40 ∧ (TE.funding_score fr = 40 ↔ fr = 0)) ∧
    (∀ pr bpr fr liq rt : ℚ, 0 < pr → 0 < bpr →
      (TE.is_better_price_source pr bpr true (some (fr, liq)) (some rt) = true ↔
        (qabs (pr - bpr) / bpr ≤ 1/20 ∧ 0 ≤ liq ∧
          60 ≤ TE.source_quality_score fr liq (some rt)))) ∧
    (∀ cands : List TE.PriceCandidate,
      (∀ c ∈ cands, ∀ p b : ℚ,
        TE.is_better_price_source p b c.isDex c.data (some c.response_time) =
          false) →
      TE.select_best none cands = TE.first_valid cands) :=
  ⟨funding_score_le_40_iff,
   fun pr bpr fr liq rt hp hb => is_better_price_source_iff pr bpr fr liq rt hp hb,
   fun cands H => select_best_no_preferred cands H⟩

/-- C8 witness: the amended statement discharged at rate 0, a pair of equal
prices with full liquidity and zero latency, and the single non-DEX
candidate. -/
theorem c8_quality_score_selection_witness :
    (TE.funding_score 0 ≤ 40 ∧ (TE.funding_score 0 = 40 ↔ (0 : ℚ) = 0)) ∧
    (TE.is_better_price_source 100 100 true (some (0, 1000000)) (some 0) =
        true ↔
      (qabs ((100 : ℚ) - 100) / 100 ≤ 1/20 ∧ (0 : ℚ) ≤ 1000000 ∧
        60 ≤ TE.source_quality_score 0 1000000 (some 0))) ∧
    TE.select_best none [Scenario.cMD] = TE.first_valid [Scenario.cMD] :=
  ⟨c8_quality_score_selection.1 0,
   c8_quality_score_selection.2.1 100 100 0 1000000 0 (by norm_num)
     (by norm_num),
   c8_quality_score_selection.2.2 [Scenario.cMD] (by
     intro c hc p b
     rw [List.mem_singleton] at hc
     subst hc
     simp only [TE.is_better_price_source, Scenario.cMD]
     split_ifs <;> rfl)⟩

/-! ## C5 -/

/-- Refreshing a position twice with the same price is the same as once: the
inputs of the PnL formula (direction, entry, size) are untouched by the
refresh. -/
theorem apply_price_idem (p : RM.Position) (price : ℚ) :
    RM.apply_price (RM.apply_price p price) price = RM.apply_price p price := by
  cases p
  simp [RM.apply_price]

/-- The per-position refresh keeps the symbol. -/
theorem update_one_fst (market : List (String × ℚ)) (pr : String × RM.Position) :
    (RM.update_one market pr).1 = pr.1 := by
  obtain ⟨sym, p⟩ := pr
  simp only [RM.update_one]
  cases dict_get market sym <;> rfl

/-- The per-position refresh is idempotent under a fixed market map. -/
theorem update_one_idem (market : List (String × ℚ))
    (pr : String × RM.Position) :
    RM.update_one market (RM.update_one market pr) =
      RM.update_one market pr := by
  obtain ⟨sym, p⟩ := pr
  cases hlk : dict_get market sym with
  | none => simp [RM.update_one, hlk]
  | some price => simp [RM.update_one, hlk, apply_price_idem]

/-- The close trigger is unchanged by a refresh under the same market map. -/
theorem trigger_after_update_one (market : List (String × ℚ))
    (pr : String × RM.Position) :
    RM.trigger_after market (RM.update_one market pr) =
      RM.trigger_after market pr := by
  obtain ⟨sym, p⟩ := pr
  cases hlk : dict_get market sym with
  | none => simp [RM.update_one, RM.trigger_after, hlk]
  | some price => simp [RM.update_one, RM.trigger_after, hlk, apply_price_idem]

/-- When no position triggers its stop-loss/take-profit under the market map,
the `update_positions` loop refreshes every position and leaves the daily
stats untouched. -/
theorem update_loop_no_close (market : List (String × ℚ))
    (ps : List (String × RM.Position)) (st : RM.DailyStats)
    (H : ∀ pr ∈ ps, RM.trigger_after market pr = false) :
    RM.update_positions_loop market ps st =
      (ps.map (RM.update_one market), st) := by
  induction ps with
  | nil => rfl
  | cons pr rest ih =>
    obtain ⟨sym, p⟩ := pr
    have h1 := H (sym, p) (List.mem_cons_self _ _)
    have hrest : ∀ x ∈ rest, RM.trigger_after market x = false :=
      fun x hx => H x (List.mem_cons_of_mem _ hx)
    cases hlk : dict_get market sym with
    | none =>
      simp [RM.update_positions_loop, hlk, ih hrest, RM.update_one]
    | some price =>
      have hck : RM.check_stop_loss_take_profit (RM.apply_price p price) =
          false := by
        simpa [RM.trigger_after, hlk] using h1
      simp [RM.update_positions_loop, hlk, hck, ih hrest, RM.update_one]

/-- Refreshing all positions a second time changes nothing. -/
theorem map_update_one_idem (market : List (String × ℚ))
    (ps : List (String × RM.Position)) :
    (ps.map (RM.update_one market)).map (RM.update_one market) =
      ps.map (RM.update_one market) := by
  induction ps with
  | nil => rfl
  | cons pr rest ih => simp [update_one_idem, ih]

/-- C5 counterexample: the two back-to-back `update_positions` calls with the
same price map produce different `PortfolioState`s.  The manager `rm2` (after
two warm-up calls at prices 110 and 100) produces a state with the all-zero
risk metrics (only one return in the history), while the repeated call on
`rm3 = update_positions rm2 m100` produces metrics computed from two returns,
with max drawdown 1/11 — each call appends to the history the metrics are
derived from. -/
theorem c5_counterexample :
    RM.produced_state Scenario.rm2 Scenario.m100 ≠
      RM.produced_state Scenario.rm3 Scenario.m100 ∧
    Scenario.rm3 = RM.update_positions Scenario.rm2 Scenario.m100 ∧
    (RM.produced_state Scenario.rm2 Scenario.m100).risk_metrics.max_drawdown =
      0 ∧
    (RM.produced_state Scenario.rm3 Scenario.m100).risk_metrics.max_drawdown =
      1/11 := by
  have h2 : (RM.produced_state Scenario.rm2
      Scenario.m100).risk_metrics.max_drawdown = 0 := by
    norm_num [RM.produced_state, Scenario.rm2, Scenario.rm0,
      RM.update_positions, RM.update_positions_loop, Scenario.P0, dict_get,
      RM.apply_price, RM.check_stop_loss_take_profit, RM.get_portfolio_state,
      RM.get_portfolio_state_stats, RM.calculate_risk_metrics, RM.returns_of,
      RM.DailyStats.init, RM.portfolio_total_equity, RM.portfolio_high_equity,
      RM.total_unrealized, RM.total_margin_used, RM.listMaxQ, qmax,
      RM.close_stats, RM.close_realized_pnl, RM.RiskMetrics.zeros,
      Scenario.m100, Scenario.m110]
  have h3 : (RM.produced_state Scenario.rm3
      Scenario.m100).risk_metrics.max_drawdown = 1/11 := by
    norm_num [RM.produced_state, Scenario.rm3, Scenario.rm2, Scenario.rm0,
      RM.update_positions, RM.update_positions_loop, Scenario.P0, dict_get,
      RM.apply_price, RM.check_stop_loss_take_profit, RM.get_portfolio_state,
      RM.get_portfolio_state_stats, RM.calculate_risk_metrics, RM.returns_of,
      RM.DailyStats.init, RM.portfolio_total_equity, RM.portfolio_high_equity,
      RM.total_unrealized, RM.total_margin_used, RM.listMaxQ, qmax,
      RM.close_stats, RM.close_realized_pnl, RM.RiskMetrics.zeros,
      Scenario.m100, Scenario.m110]
  refine ⟨?_, rfl, h2, h3⟩
  intro h
  rw [h] at h2
  rw [h3] at h2
  norm_num at h2

/-- C5 (amended): provided no position triggers its stop-loss or take-profit
under the price map, two back-to-back `update_positions` calls with the same
map produce `PortfolioState`s that agree on every field except
`risk_metrics` — equity, margins, PnL, positions, drawdown and exposure are
not double-counted; the metrics may differ because every call appends the
produced state to the history the metrics are computed from. -/
theorem c5_update_core_idempotent (s : RM.RMState)
    (market : List (String × ℚ))
    (H : ∀ pr ∈ s.positions, RM.trigger_after market pr = false) :
    (RM.produced_state s market).core =
      (RM.produced_state (RM.update_positions s market) market).core := by
  have h1 : RM.update_positions_loop market s.positions s.daily_stats =
      (s.positions.map (RM.update_one market), s.daily_stats) :=
    update_loop_no_close market s.positions s.daily_stats H
  have Hmap : ∀ pr ∈ s.positions.map (RM.update_one market),
      RM.trigger_after market pr = false := by
    intro pr hpr
    rcases List.mem_map.mp hpr with ⟨q, hq, rfl⟩
    rw [trigger_after_update_one]
    exact H q hq
  have h2 : RM.update_positions_loop market
      (s.positions.map (RM.update_one market))
      (RM.get_portfolio_state_stats (s.positions.map (RM.update_one market))
        s.daily_stats) =
      ((s.positions.map (RM.update_one market)).map (RM.update_one market),
        RM.get_portfolio_state_stats (s.positions.map (RM.update_one market))
          s.daily_stats) :=
    update_loop_no_close market _ _ Hmap
  simp only [RM.produced_state, RM.update_positions, h1, h2,
    map_update_one_idem]
  simp only [RM.PortfolioState.core, RM.get_portfolio_state,
    RM.get_portfolio_state_stats, RM.portfolio_total_equity,
    RM.portfolio_high_equity]
  rw [qmax_qmax_self]

/-- C5 witness: the amended statement discharged at the concrete manager
`rm2` and map `m100` (the held position has stop-loss 1 and take-profit
1000000, far from the price 100, so nothing triggers). -/
theorem c5_update_core_idempotent_witness :
    (RM.produced_state Scenario.rm2 Scenario.m100).core =
      (RM.produced_state (RM.update_positions Scenario.rm2 Scenario.m100)
        Scenario.m100).core :=
  c5_update_core_idempotent Scenario.rm2 Scenario.m100 (by
    intro pr hpr
    have hpos : Scenario.rm2.positions =
        [("BTC", RM.apply_price Scenario.P0 100)] := by
      norm_num [Scenario.rm2, Scenario.rm0, RM.update_positions,
        RM.update_positions_loop, Scenario.P0, dict_get, RM.apply_price,
        RM.check_stop_loss_take_profit, Scenario.m100, Scenario.m110,
        RM.get_portfolio_state_stats]
    rw [hpos] at hpr
    rw [List.mem_singleton] at hpr
    subst hpr
    norm_num [RM.trigger_after, dict_get, Scenario.m100, RM.apply_price,
      Scenario.P0, RM.check_stop_loss_take_profit])

/-! ## C9 -/

/-- C9: opening a new contract position stores the un-awaited coroutine object
of the async `_get_funding_rate` call (trade_executor.py line 214) in
`funding_rate` — not a float, and in particular not the awaited default
0.0001 that `_get_funding_rate` returns when every feed fails. -/
theorem c9_funding_rate_not_awaited :
    (TE.open_new_contract_position Scenario.sigC 50000).map
        (fun p => p.funding_rate) = .ok TE.PyFloat.coroutine ∧
    TE.PyFloat.coroutine ≠ TE.PyFloat.num (1/10000) ∧
    TE.get_funding_rate (.error ()) (.error ()) = 1/10000 ∧
    TE.get_funding_rate (.ok (some (3/1000))) (.error ()) = 3/1000 := by
  refine ⟨?_, by simp, ?_, ?_⟩
  · norm_num [TE.open_new_contract_position, Scenario.sigC,
      TE.calculate_position_size, TE.calculate_liquidation_price,
      TE.calculate_maintenance_margin, TE.pyTruthy, TE.min_maintenance_margin,
      qabs, qmin, Except.map]
  · norm_num [TE.get_funding_rate, TE.pyTruthy]
  · norm_num [TE.get_funding_rate, TE.pyTruthy]

/-! ## C10 -/

/-- C10 counterexample: at price = stopLoss the position-size computation
fails with Python's unnamed `ZeroDivisionError`, not with a named
`ZeroPriceRisk` rejection (no such error exists in the code). -/
theorem c10_counterexample :
    RM.calculate_position_size Scenario.cfg0 [] RM.DailyStats.init
        50000 50000 0 = .error "ZeroDivisionError" ∧
    "ZeroDivisionError" ≠ "ZeroPriceRisk" := by
  constructor
  · norm_num [RM.calculate_position_size, Scenario.cfg0, RM.DailyStats.init,
      RM.portfolio_total_equity, RM.total_unrealized, qabs]
  · decide

/-- C10 (amended): whenever price equals stopLoss, `calculate_position_size`
raises an uncaught `ZeroDivisionError` (the `risk_amount / price_risk`
division with `price_risk = 0`); it never returns a size, and no named
`ZeroPriceRisk` rejection is involved. -/
theorem c10_zero_price_risk_division (cfg : RM.RiskConfig)
    (ps : List (String × RM.Position)) (st : RM.DailyStats)
    (price volatility : ℚ) :
    RM.calculate_position_size cfg ps st price price volatility =
      .error "ZeroDivisionError" := by
  simp [RM.calculate_position_size, qabs]

end Gosol
